import Mathlib

/-!
Verification of the resilient-fetch and normalization core of the
`the-junior-associate` legal-case scraping library: the retry/backoff
request pipeline (`BaseScraper._make_request`), rate-limit pacing
(`BaseScraper._respect_rate_limit`), parameter validation
(`BaseScraper.validate_search_params`), HTML parsing
(`BaseScraper._parse_html`), and the adapter-level `search_cases` and
`get_case_by_id` control flow of the CourtListener, BAILII, Légifrance and
CanLII adapters. External collaborators (the `requests` transport, the
`dateutil` date parser, the `BeautifulSoup` constructor, per-record
extraction) are modelled as oracles or by their documented behaviour.
-/

/-- Outcome of one transport-level attempt by `requests.Session.request`:
either an HTTP response is received, or a transport exception is raised
(`Timeout`, `ConnectionError`, or another `RequestException`). -/
inductive TransportOutcome
  | resp (status : Nat) (retryAfterHeader : Option String)
  | timeout
  | connError
  | reqError
deriving DecidableEq, Repr

/-- The slice of a `requests.Response` that `BaseScraper._make_request`
inspects: the status code and the `Retry-After` header. -/
structure HttpResponse where
  status : Nat
  retryAfterHeader : Option String
deriving DecidableEq, Repr

/-- Typed errors raised by the library (`utils/exceptions.py`), together
with the built-in `ValueError` that some paths raise or leave uncaught.
Human-readable messages are not modelled; constructors carry the structured
fields the code attaches (`url`, `status_code`, `retry_after`). -/
inductive ScrapeError
  | networkError (url : String) (statusCode : Option Nat)
  | rateLimitError (retryAfter : Int) (url : String)
  | authenticationError (url : String) (statusCode : Nat)
  | parsingError
  | valueError
deriving DecidableEq, Repr

/-- Configuration fields of `BaseScraper.__init__` read by the retry logic:
`max_retries` and `retry_delay` (the base backoff delay in seconds,
modelled as a rational number). -/
structure ScraperConfig where
  maxRetries : Nat
  retryDelay : ℚ
deriving Repr

/-- Observable side effects of `BaseScraper._make_request`, in order of
occurrence: a call to `_respect_rate_limit`, a call to `session.request`
for the zero-indexed attempt `i`, the assignment
`self._last_request_time = time.time()` right after a response is
received, and a backoff `time.sleep` of the given duration. -/
inductive Event
  | rateLimitWait
  | attemptIssued (i : Nat)
  | clockUpdate (i : Nat)
  | backoffSleep (d : ℚ)
deriving DecidableEq, Repr

/-- Numeric value of a list of decimal digit characters, or `none` when the
list is empty or holds a non-digit. -/
def digitsValue? (cs : List Char) : Option Nat :=
  if cs = [] then none
  else if cs.all Char.isDigit then
    some (cs.foldl (fun acc c => 10 * acc + (c.toNat - 48)) 0)
  else none

/-- Leading and trailing whitespace removed from a character list. -/
def trimChars (cs : List Char) : List Char :=
  ((cs.dropWhile Char.isWhitespace).reverse.dropWhile Char.isWhitespace).reverse

/-- Models the `int(s)` builtin on a decimal string: surrounding whitespace
is stripped, one optional sign is allowed, the rest must be nonempty
digits; `none` models the `ValueError` that `int` raises otherwise. -/
def pyInt? (s : String) : Option Int :=
  match trimChars s.data with
  | [] => none
  | c :: rest =>
    if c = '+' then (digitsValue? rest).map Int.ofNat
    else if c = '-' then (digitsValue? rest).map (fun n => -(n : Int))
    else (digitsValue? (c :: rest)).map Int.ofNat

/-- Models `int(response.headers.get("Retry-After", 60))` in
`_make_request`: an absent header yields the integer default `60`; a
present header is parsed by `int`, and an unparseable one raises
`ValueError` (which no handler in `_make_request` catches). -/
def retryAfterValue : Option String → Except ScrapeError Int
  | none => .ok 60
  | some s =>
    match pyInt? s with
    | some v => .ok v
    | none => .error .valueError

/-- One pass of the `for attempt in range(max_retries + 1)` loop of
`BaseScraper._make_request` (utils/base.py), starting at attempt index
`attempt` with `rem` loop iterations remaining, given the transport
behaviour of each attempt. Returns the emitted events and the result: the
returned response or the raised error. The `rem = 0` case is the
fall-through `NetworkError` after the loop (unreachable when
`rem = max_retries + 1 - attempt`). -/
def attemptLoop (cfg : ScraperConfig) (url : String)
    (transport : Nat → TransportOutcome) :
    Nat → Nat → List Event × Except ScrapeError HttpResponse
  | 0, _ => ([], .error (.networkError url none))
  | rem + 1, attempt =>
    match transport attempt with
    | .resp status ra =>
      if status = 200 then
        ([.attemptIssued attempt, .clockUpdate attempt], .ok ⟨status, ra⟩)
      else if status = 429 then
        ([.attemptIssued attempt, .clockUpdate attempt],
          match retryAfterValue ra with
          | .ok v => .error (.rateLimitError v url)
          | .error e => .error e)
      else if status = 401 ∨ status = 403 then
        ([.attemptIssued attempt, .clockUpdate attempt],
          .error (.authenticationError url status))
      else if 500 ≤ status then
        if attempt < cfg.maxRetries then
          let rest := attemptLoop cfg url transport rem (attempt + 1)
          (.attemptIssued attempt :: .clockUpdate attempt ::
            .backoffSleep (cfg.retryDelay * 2 ^ attempt) :: rest.1, rest.2)
        else
          ([.attemptIssued attempt, .clockUpdate attempt],
            .error (.networkError url (some status)))
      else
        ([.attemptIssued attempt, .clockUpdate attempt],
          .error (.networkError url (some status)))
    | .timeout =>
      if attempt < cfg.maxRetries then
        let rest := attemptLoop cfg url transport rem (attempt + 1)
        (.attemptIssued attempt ::
          .backoffSleep (cfg.retryDelay * 2 ^ attempt) :: rest.1, rest.2)
      else ([.attemptIssued attempt], .error (.networkError url none))
    | .connError =>
      if attempt < cfg.maxRetries then
        let rest := attemptLoop cfg url transport rem (attempt + 1)
        (.attemptIssued attempt ::
          .backoffSleep (cfg.retryDelay * 2 ^ attempt) :: rest.1, rest.2)
      else ([.attemptIssued attempt], .error (.networkError url none))
    | .reqError => ([.attemptIssued attempt], .error (.networkError url none))

/-- Models `BaseScraper._make_request` on one logical request:
`_respect_rate_limit()` runs once, then the attempt loop runs with
`max_retries + 1` iterations starting from attempt `0`. -/
def makeRequest (cfg : ScraperConfig) (url : String)
    (transport : Nat → TransportOutcome) :
    List Event × Except ScrapeError HttpResponse :=
  let r := attemptLoop cfg url transport (cfg.maxRetries + 1) 0
  (.rateLimitWait :: r.1, r.2)

/-- Durations of the backoff sleeps in an event trace, in order. -/
def backoffSleeps (evs : List Event) : List ℚ :=
  evs.filterMap fun e =>
    match e with
    | .backoffSleep d => some d
    | _ => none

/-- Number of HTTP attempts issued in an event trace. -/
def attemptCount (evs : List Event) : Nat :=
  evs.countP fun e =>
    match e with
    | .attemptIssued _ => true
    | _ => false

/-- Number of `_respect_rate_limit` invocations in an event trace. -/
def waitCount (evs : List Event) : Nat :=
  evs.countP fun e =>
    match e with
    | .rateLimitWait => true
    | _ => false

/-- Transport behaviour used to witness the backoff claim: HTTP 500 on the
first two attempts, HTTP 200 on the third. -/
def transportFiveHundredTwice : Nat → TransportOutcome :=
  fun i => .resp (if i < 2 then 500 else 200) none

/-- Transport behaviour returning HTTP 429 with a parseable
`Retry-After: 60` header on every attempt. -/
def transportRateLimited : Nat → TransportOutcome :=
  fun _ => .resp 429 (some "60")

/-- Transport behaviour returning HTTP 429 with an unparseable
`Retry-After: abc` header on every attempt. -/
def transportRateLimitedBadHeader : Nat → TransportOutcome :=
  fun _ => .resp 429 (some "abc")

/-- Transport behaviour: HTTP 500 on attempt 0, HTTP 200 afterwards. -/
def transportOneServerError : Nat → TransportOutcome :=
  fun i => if i = 0 then .resp 500 none else .resp 200 none

/-- Date argument of `validate_search_params`: the `None` default, a
string, or an already-resolved `datetime` (modelled as an integer
timestamp, since only ordering is observed). -/
inductive DateInput
  | pynone
  | str (s : String)
  | dt (d : Int)
deriving DecidableEq, Repr

/-- Truthiness of a date argument in the `if start_date:` tests: `None` and
the empty string are falsy; every `datetime` is truthy. -/
def DateInput.isTruthy : DateInput → Bool
  | .pynone => false
  | .str s => s != ""
  | .dt _ => true

/-- Models `helpers.validate_date` over an abstract date parser `dparse`
standing for `dateutil.parser.parse`: `None` passes through, a `datetime`
is returned unchanged, a string is parsed, and a parse failure raises
`ValueError`. -/
def validate_date (dparse : String → Option Int) :
    DateInput → Except ScrapeError (Option Int)
  | .pynone => .ok none
  | .dt d => .ok (some d)
  | .str s =>
    match dparse s with
    | some d => .ok (some d)
    | none => .error .valueError

/-- The validated parameter dictionary built by
`BaseScraper.validate_search_params`: the possibly-absent resolved
`start_date` and `end_date` keys and the possibly-absent `limit` key. -/
structure SearchParams where
  start_date : Option Int
  end_date : Option Int
  limit : Option Int
deriving DecidableEq, Repr

/-- The `limit` argument of `validate_search_params` when present: an `int`,
or a value of any other type, for which `isinstance(limit, int)` is false. -/
inductive PyLimit
  | int (n : Int)
  | nonInt
deriving DecidableEq, Repr

/-- Date-handling half of `validate_search_params`: each truthy date
argument is resolved through `validate_date`, and when both resolved dates
are present a start date strictly after the end date raises `ValueError`
(message `Start date must be before end date`). -/
def datesPart (dparse : String → Option Int)
    (start_date end_date : DateInput) :
    Except ScrapeError (Option Int × Option Int) :=
  match (if start_date.isTruthy then validate_date dparse start_date
      else .ok none) with
  | .error e => .error e
  | .ok s? =>
    match (if end_date.isTruthy then validate_date dparse end_date
        else .ok none) with
    | .error e => .error e
    | .ok e? =>
      match s?, e? with
      | some s, some e =>
        if e < s then .error .valueError else .ok (some s, some e)
      | _, _ => .ok (s?, e?)

/-- Limit-handling half of `validate_search_params`: an absent limit adds
no key; a non-`int` or nonpositive limit raises `ValueError` (message
`Limit must be a positive integer`); a positive `int` limit is capped by
`min(limit, 1000)`. -/
def limitPart (s? e? : Option Int) (limit : Option PyLimit) :
    Except ScrapeError SearchParams :=
  match limit with
  | none => .ok ⟨s?, e?, none⟩
  | some .nonInt => .error .valueError
  | some (.int n) =>
    if n ≤ 0 then .error .valueError
    else .ok ⟨s?, e?, some (min n 1000)⟩

/-- Models `BaseScraper.validate_search_params`: the date checks run first,
then the limit check. -/
def validate_search_params (dparse : String → Option Int)
    (start_date end_date : DateInput) (limit : Option PyLimit) :
    Except ScrapeError SearchParams :=
  match datesPart dparse start_date end_date with
  | .error e => .error e
  | .ok (s?, e?) => limitPart s? e? limit

/-- A date argument resolves to the timestamp `d` under the parser
`dparse`: it is either the `datetime` `d` itself, or a nonempty string that
`dparse` parses to `d` (nonempty, hence truthy, so
`validate_search_params` does not skip it). -/
def resolvesTo (dparse : String → Option Int) (i : DateInput) (d : Int) :
    Prop :=
  i = .dt d ∨ ∃ s, i = .str s ∧ s ≠ "" ∧ dparse s = some d

/-- The `limit` key produced by a `validate_search_params` call whose limit
argument is absent or a positive `int`: absent stays absent, a positive
`int` is capped at 1000. -/
def limitField : Option PyLimit → Option Int
  | none => none
  | some (.int n) => some (min n 1000)
  | some .nonInt => none

/-- A normalized case record; only the fields the verified claims inspect
are modelled. -/
structure CaseData where
  case_name : String
deriving DecidableEq, Repr

/-- Per-record extraction loop shared by the `search_cases`
implementations: the record builder for one raw item may raise (modelled
as `Except.error`) or return `None`; only `.ok (some record)` appends, and
failures are logged and skipped without aborting the loop. -/
def extractedRecords (extract : String → Except String (Option CaseData))
    (items : List String) : List CaseData :=
  items.filterMap fun it =>
    match extract it with
    | .ok c? => c?
    | .error _ => none

/-- Models `CourtListenerScraper.search_cases` from the request onwards:
`requestResult` is the outcome of `_make_request` (its body on success, the
raised scraping error otherwise), `jsonParse` the `response.json()` decode
producing the entries of the `results` key, `extract` the per-item record
builder. The `try/except json.JSONDecodeError` around the request turns
only JSON decode failures into `ParsingError`; scraping errors raised by
`_make_request` are not `json.JSONDecodeError` and propagate unchanged. -/
def courtlistenerSearchPipeline (requestResult : Except ScrapeError String)
    (jsonParse : String → Except String (List String))
    (extract : String → Except String (Option CaseData)) :
    Except ScrapeError (List CaseData) :=
  match requestResult with
  | .error e => .error e
  | .ok body =>
    match jsonParse body with
    | .error _ => .error .parsingError
    | .ok items => .ok (extractedRecords extract items)

/-- Models `BAILIIScraper.search_cases` from the request onwards: the
`try/except Exception` wrapped around `_make_request` and `_parse_html`
re-raises every failure there — scraping errors raised by the request
included — as `ParsingError`; the extracted case links (capped at `limit`)
then feed the per-link record builder. -/
def bailiiSearchPipeline (requestResult : Except ScrapeError String)
    (parsePage : String → Except ScrapeError (List String)) (limit : Nat)
    (extract : String → Except String (Option CaseData)) :
    Except ScrapeError (List CaseData) :=
  match requestResult with
  | .error _ => .error .parsingError
  | .ok body =>
    match parsePage body with
    | .error _ => .error .parsingError
    | .ok links => .ok (extractedRecords extract (links.take limit))

/-- A parsed document tree, wrapping the markup it was built from. -/
structure Soup where
  content : String
deriving DecidableEq, Repr

/-- Models the `BeautifulSoup` constructor with either the `lxml` or the
`html.parser` backend: called on `None` it raises a `TypeError`; called on
any string — empty or malformed included, both backends being lenient — it
returns a best-effort tree and never raises. -/
def beautifulSoup (content : Option String) : Except Unit Soup :=
  match content with
  | none => .error ()
  | some s => .ok ⟨s⟩

/-- Models `BaseScraper._parse_html` over abstract primary (`lxml`) and
fallback (`html.parser`) parser backends: the primary parser is tried
first, any failure falls back to the lenient parser, and only when both
fail is `ParsingError` raised. -/
def parse_html (primary fallback : Option String → Except Unit Soup)
    (content : Option String) : Except ScrapeError Soup :=
  match primary content with
  | .ok soup => .ok soup
  | .error _ =>
    match fallback content with
    | .ok soup => .ok soup
    | .error _ => .error .parsingError

/-- Models the `str.startswith(pre)` test as a prefix check on the
character lists. -/
def pyStartswith (s pre : String) : Bool :=
  pre.data.isPrefixOf s.data

/-- Models the `'/' in case_id` membership test on the character list. -/
def pyContainsChar (s : String) (c : Char) : Bool :=
  s.data.contains c

/-- Models `LegifranceScraper.get_case_by_id`: an empty id raises
`ValueError`; an id starting with `http` is fetched as a direct URL; a
Légifrance document id (`CETATEXT...` or `JURITEXT...`) is fetched at
`base_url/juri/id/<id>`; any other id falls back to
`search_cases(query=case_id, limit=1)`, returning the first hit or `None`.
The URL-fetch branches sit in a `try/except` that returns `None` on any
failure, modelled by the `fetchDetail` oracle; errors raised by the
fallback search propagate. -/
def legifrance_get_case_by_id
    (search : String → Nat → Except ScrapeError (List CaseData))
    (fetchDetail : String → Option CaseData) (caseId : String) :
    Except ScrapeError (Option CaseData) :=
  if caseId = "" then .error .valueError
  else if pyStartswith caseId "http" then .ok (fetchDetail caseId)
  else if pyStartswith caseId "CETATEXT" ∨ pyStartswith caseId "JURITEXT" then
    .ok (fetchDetail ("https://www.legifrance.gouv.fr/juri/id/" ++ caseId))
  else
    match search caseId 1 with
    | .error e => .error e
    | .ok cs => .ok cs.head?

/-- Models `CanLIIScraper.get_case_by_id`: an empty id raises `ValueError`;
an id starting with `http` is fetched as a direct URL; an id containing a
slash is treated as a URL path under `base_url/en/`; any other id falls
back to a search whose query wraps the id as `citation:"<id>"` with
`limit=1`, returning the first hit or `None`. -/
def canlii_get_case_by_id
    (search : String → Nat → Except ScrapeError (List CaseData))
    (fetchDetail : String → Option CaseData) (caseId : String) :
    Except ScrapeError (Option CaseData) :=
  if caseId = "" then .error .valueError
  else if pyStartswith caseId "http" then .ok (fetchDetail caseId)
  else if pyContainsChar caseId '/' then
    .ok (fetchDetail ("https://www.canlii.org/en/" ++ caseId ++ ".html"))
  else
    match search ("citation:\"" ++ caseId ++ "\"") 1 with
    | .error e => .error e
    | .ok cs => .ok cs.head?

/-- Models `CourtListenerScraper.get_case_by_id`: an empty id raises
`ValueError`; otherwise the opinion endpoint is tried (any exception in
that `try` block falls through), then the cluster endpoint, and a failure
of both returns `None`. No branch ever calls `search_cases`. -/
def courtlistener_get_case_by_id
    (opinionTry clusterTry : String → Except Unit (Option CaseData))
    (caseId : String) : Except ScrapeError (Option CaseData) :=
  if caseId = "" then .error .valueError
  else
    match opinionTry caseId with
    | .ok r => .ok r
    | .error _ =>
      match clusterTry caseId with
      | .ok r => .ok r
      | .error _ => .ok none

/-- A search oracle that finds one fixed record for every query, used to
show which branches of `get_case_by_id` consult the search at all. -/
def searchFindsOne : String → Nat → Except ScrapeError (List CaseData) :=
  fun _ _ => .ok [⟨"Found via search"⟩]

/-- A page whose decoded `results` list has two raw items. -/
def twoItemsJson : String → Except String (List String) :=
  fun _ => .ok ["good", "bad"]

/-- A parsed page whose case-link list has two links. -/
def twoLinksPage : String → Except ScrapeError (List String) :=
  fun _ => .ok ["good", "bad"]

/-- A record builder that raises on the item `bad` and succeeds on every
other item, exercising the skip-on-failure path of a result loop. -/
def skipBadExtract : String → Except String (Option CaseData) :=
  fun it => if it = "bad" then .error "boom" else .ok (some ⟨it⟩)

theorem attemptLoop_alwaysTimeout (cfg : ScraperConfig) (url : String) :
    ∀ rem a, a + rem = cfg.maxRetries + 1 →
      (attemptLoop cfg url (fun _ => .timeout) rem a).2 =
          .error (.networkError url none) ∧
        attemptCount (attemptLoop cfg url (fun _ => .timeout) rem a).1 = rem := by
  intro rem
  induction rem with
  | zero =>
    intro a _
    simp [attemptLoop, attemptCount]
  | succ n ih =>
    intro a ha
    by_cases h : a < cfg.maxRetries
    · obtain ⟨ih1, ih2⟩ := ih (a + 1) (by omega)
      simp only [attemptLoop, h, if_true] at *
      refine ⟨ih1, ?_⟩
      simp [attemptCount, List.countP_cons] at ih2 ⊢
      omega
    · have hn : n = 0 := by omega
      subst hn
      simp [attemptLoop, h, attemptCount, List.countP_cons]

/-- C2: with a transport that times out on every attempt, `_make_request`
issues exactly `maxRetries + 1` attempts — never more and never fewer —
and then fails with `NetworkError`, for every `maxRetries ≥ 0`. -/
theorem makeRequest_allTimeout_attempts (cfg : ScraperConfig) (url : String) :
    (makeRequest cfg url (fun _ => .timeout)).2 =
        .error (.networkError url none) ∧
      attemptCount (makeRequest cfg url (fun _ => .timeout)).1 =
        cfg.maxRetries + 1 := by
  obtain ⟨h1, h2⟩ :=
    attemptLoop_alwaysTimeout cfg url (cfg.maxRetries + 1) 0 (by omega)
  refine ⟨h1, ?_⟩
  simpa [makeRequest, attemptCount, List.countP_cons] using h2

theorem attemptLoop_fiveHundredThenOk (cfg : ScraperConfig) (url : String)
    (transport : Nat → TransportOutcome) (hdr : Nat → Option String)
    (ht : ∀ i, i ≤ cfg.maxRetries →
      transport i = .resp (if i < cfg.maxRetries then 500 else 200) (hdr i)) :
    ∀ rem a, a + rem = cfg.maxRetries + 1 → a ≤ cfg.maxRetries →
      (attemptLoop cfg url transport rem a).2 = .ok ⟨200, hdr cfg.maxRetries⟩ ∧
      backoffSleeps (attemptLoop cfg url transport rem a).1 =
        (List.range' a (cfg.maxRetries - a)).map fun i =>
          cfg.retryDelay * 2 ^ i := by
  intro rem
  induction rem with
  | zero => intro a ha hle; omega
  | succ n ih =>
    intro a ha hle
    by_cases h : a < cfg.maxRetries
    · have hta := ht a hle
      rw [if_pos h] at hta
      obtain ⟨ih1, ih2⟩ := ih (a + 1) (by omega) (by omega)
      simp only [attemptLoop, hta]
      norm_num
      rw [if_pos h]
      refine ⟨ih1, ?_⟩
      have hr : cfg.maxRetries - a = (cfg.maxRetries - (a + 1)) + 1 := by omega
      rw [hr, List.range'_succ]
      simp only [backoffSleeps] at ih2
      simp [backoffSleeps, ih2]
    · have haeq : a = cfg.maxRetries := by omega
      have hta := ht a hle
      rw [if_neg h] at hta
      subst haeq
      simp [attemptLoop, hta, backoffSleeps]

/-- C1: when the transport returns HTTP 500 on the first `maxRetries`
attempts and HTTP 200 on the last (`maxRetries ≥ 1`,
`retry_delay > 0`), `_make_request` returns the successful response, the
backoff sleep before the zero-indexed retry `a` equals
`retry_delay * 2 ^ a`, and the successive sleeps strictly increase by
doubling. -/
theorem makeRequest_backoffDoubling (cfg : ScraperConfig) (url : String)
    (transport : Nat → TransportOutcome) (hdr : Nat → Option String)
    (hm : 1 ≤ cfg.maxRetries) (hd : 0 < cfg.retryDelay)
    (ht : ∀ i, i ≤ cfg.maxRetries →
      transport i = .resp (if i < cfg.maxRetries then 500 else 200) (hdr i)) :
    (makeRequest cfg url transport).2 = .ok ⟨200, hdr cfg.maxRetries⟩ ∧
    backoffSleeps (makeRequest cfg url transport).1 =
      (List.range cfg.maxRetries).map (fun a => cfg.retryDelay * 2 ^ a) ∧
    ∀ a, a + 1 < cfg.maxRetries →
      (backoffSleeps (makeRequest cfg url transport).1).getD (a + 1) 0 =
          2 * (backoffSleeps (makeRequest cfg url transport).1).getD a 0 ∧
        (backoffSleeps (makeRequest cfg url transport).1).getD a 0 <
          (backoffSleeps (makeRequest cfg url transport).1).getD (a + 1) 0 := by
  obtain ⟨h1, h2⟩ :=
    attemptLoop_fiveHundredThenOk cfg url transport hdr ht
      (cfg.maxRetries + 1) 0 (by omega) (by omega)
  have hsl : backoffSleeps (makeRequest cfg url transport).1 =
      (List.range cfg.maxRetries).map (fun a => cfg.retryDelay * 2 ^ a) := by
    rw [List.range_eq_range']
    simpa [makeRequest, backoffSleeps] using h2
  refine ⟨by simpa [makeRequest] using h1, hsl, ?_⟩
  intro a hlt
  have hget : ∀ b, b < cfg.maxRetries →
      (backoffSleeps (makeRequest cfg url transport).1).getD b 0 =
        cfg.retryDelay * 2 ^ b := by
    intro b hb
    rw [hsl, List.getD_eq_getElem?_getD, List.getElem?_map, List.getElem?_range hb]
    rfl
  rw [hget a (by omega), hget (a + 1) hlt]
  constructor
  · ring
  · have h2p : (2 : ℚ) ^ a < 2 ^ (a + 1) := by
      have := pow_pos (by norm_num : (0 : ℚ) < 2) a
      rw [pow_succ]
      nlinarith
    exact mul_lt_mul_of_pos_left h2p hd

/-- Witness for C1 at `maxRetries = 2`, `retry_delay = 1`: the request
succeeds and the backoff sleeps are `[1, 2]`, doubling. -/
theorem makeRequest_backoffDoubling_witness :
    (makeRequest ⟨2, 1⟩ "https://example.com" transportFiveHundredTwice).2 =
        .ok ⟨200, none⟩ ∧
      backoffSleeps
          (makeRequest ⟨2, 1⟩ "https://example.com"
            transportFiveHundredTwice).1 =
        [1, 2] := by
  obtain ⟨h1, h2, h3⟩ :=
    makeRequest_backoffDoubling ⟨2, 1⟩ "https://example.com"
      transportFiveHundredTwice (fun _ => none) (by norm_num) (by norm_num)
      (fun i _ => rfl)
  refine ⟨h1, ?_⟩
  rw [h2]
  simp [List.range_succ]

/-- C3 (amended): an HTTP 429 response makes `_make_request` fail on that
same attempt with no internal retry; `retryAfter` equals the integer value
of the `Retry-After` header when the header parses, and defaults to `60`
when the header is absent — but a header that is present and unparseable
as an integer makes the `int` conversion raise `ValueError`, which
propagates instead of a `RateLimitError` with the default. -/
theorem makeRequest_429_immediate (cfg : ScraperConfig) (url : String)
    (transport : Nat → TransportOutcome) (ra : Option String)
    (h : transport 0 = .resp 429 ra) :
    attemptCount (makeRequest cfg url transport).1 = 1 ∧
    (ra = none →
      (makeRequest cfg url transport).2 = .error (.rateLimitError 60 url)) ∧
    (∀ s v, ra = some s → pyInt? s = some v →
      (makeRequest cfg url transport).2 = .error (.rateLimitError v url)) ∧
    (∀ s, ra = some s → pyInt? s = none →
      (makeRequest cfg url transport).2 = .error .valueError) := by
  refine ⟨?_, ?_, ?_, ?_⟩
  · simp [makeRequest, attemptLoop, h, attemptCount, List.countP_cons]
  · rintro rfl
    simp [makeRequest, attemptLoop, h, retryAfterValue]
  · rintro s v rfl hp
    simp [makeRequest, attemptLoop, h, retryAfterValue, hp]
  · rintro s rfl hp
    simp [makeRequest, attemptLoop, h, retryAfterValue, hp]

/-- Witness for C3: HTTP 429 with `Retry-After: 60` yields a single attempt
and a `RateLimitError` carrying `retryAfter = 60`. -/
theorem makeRequest_429_immediate_witness :
    attemptCount
        (makeRequest ⟨3, 1⟩ "https://example.com" transportRateLimited).1 =
        1 ∧
      (makeRequest ⟨3, 1⟩ "https://example.com" transportRateLimited).2 =
        .error (.rateLimitError 60 "https://example.com") := by
  obtain ⟨h1, _, h2, _⟩ :=
    makeRequest_429_immediate ⟨3, 1⟩ "https://example.com"
      transportRateLimited (some "60") rfl
  exact ⟨h1, h2 "60" 60 rfl rfl⟩

/-- C3 counterexample: with `Retry-After: abc` — present but unparseable —
the `int` conversion raises `ValueError`, which propagates out of
`_make_request`; the call does not fail with `RateLimitError` carrying the
default `retryAfter = 60` as the claim states. -/
theorem makeRequest_429_unparseable_counterexample :
    (makeRequest ⟨3, 1⟩ "https://example.com"
          transportRateLimitedBadHeader).2 =
        .error .valueError ∧
      (makeRequest ⟨3, 1⟩ "https://example.com"
          transportRateLimitedBadHeader).2 ≠
        .error (.rateLimitError 60 "https://example.com") := by
  have hres : (makeRequest ⟨3, 1⟩ "https://example.com"
      transportRateLimitedBadHeader).2 = .error .valueError := by rfl
  refine ⟨hres, ?_⟩
  rw [hres]
  simp

theorem attemptLoop_no_wait (cfg : ScraperConfig) (url : String)
    (transport : Nat → TransportOutcome) :
    ∀ rem a, waitCount (attemptLoop cfg url transport rem a).1 = 0 := by
  intro rem
  induction rem with
  | zero => intro a; simp [attemptLoop, waitCount]
  | succ n ih =>
    intro a
    have ihh := ih (a + 1)
    simp only [waitCount] at ihh ⊢
    rcases h : transport a with ⟨s, ra⟩ | _ | _ | _ <;>
      simp only [attemptLoop, h] <;>
      first
        | (split_ifs <;> simp [List.countP_cons, ihh])
        | simp [List.countP_cons, ihh]

theorem attemptLoop_clockUpdate_mem (cfg : ScraperConfig) (url : String)
    (transport : Nat → TransportOutcome) :
    ∀ rem a i,
      Event.clockUpdate i ∈ (attemptLoop cfg url transport rem a).1 ↔
        (Event.attemptIssued i ∈ (attemptLoop cfg url transport rem a).1 ∧
          ∃ s ra, transport i = TransportOutcome.resp s ra) := by
  intro rem
  induction rem with
  | zero => intro a i; simp [attemptLoop]
  | succ n ih =>
    intro a i
    have ihh := ih (a + 1) i
    by_cases hi : i = a
    · subst hi
      rcases h : transport i with ⟨s, ra⟩ | _ | _ | _ <;>
        simp only [attemptLoop, h] <;>
        first
          | (split_ifs <;> simp [h, ihh])
          | simp [h, ihh]
    · rcases h : transport a with ⟨s, ra⟩ | _ | _ | _ <;>
        simp only [attemptLoop, h] <;>
        first
          | (split_ifs <;> simp [hi, Ne.symm hi, ihh])
          | simp [hi, Ne.symm hi, ihh]

/-- C4 (amended): `_respect_rate_limit` runs exactly once per
`_make_request` call, as its first action (not again before each retry),
and `_last_request_time` is updated exactly on the attempts whose transport
outcome is an HTTP response — any status, including 5xx responses that are
subsequently retried — and never on attempts that end in a transport
exception. -/
theorem makeRequest_pacing_clock (cfg : ScraperConfig) (url : String)
    (transport : Nat → TransportOutcome) :
    (makeRequest cfg url transport).1.head? = some .rateLimitWait ∧
    waitCount (makeRequest cfg url transport).1 = 1 ∧
    ∀ i, Event.clockUpdate i ∈ (makeRequest cfg url transport).1 ↔
      (Event.attemptIssued i ∈ (makeRequest cfg url transport).1 ∧
        ∃ s ra, transport i = TransportOutcome.resp s ra) := by
  refine ⟨rfl, ?_, ?_⟩
  · have := attemptLoop_no_wait cfg url transport (cfg.maxRetries + 1) 0
    simp only [waitCount] at this
    simp [makeRequest, waitCount, List.countP_cons, this]
  · intro i
    have := attemptLoop_clockUpdate_mem cfg url transport (cfg.maxRetries + 1) 0 i
    simpa [makeRequest] using this

/-- C4 counterexample: with `maxRetries = 1`, HTTP 500 on attempt 0 and
HTTP 200 on attempt 1, the full event trace shows `_respect_rate_limit`
running once for two issued attempts — not before every attempt — and
`_last_request_time` being updated at attempt 0 even though that attempt is
then retried, contradicting the claim on both counts. -/
theorem makeRequest_pacing_clock_counterexample :
    (makeRequest ⟨1, 1⟩ "https://example.com" transportOneServerError).1 =
      [.rateLimitWait, .attemptIssued 0, .clockUpdate 0, .backoffSleep 1,
        .attemptIssued 1, .clockUpdate 1] ∧
    waitCount
        (makeRequest ⟨1, 1⟩ "https://example.com" transportOneServerError).1 =
      1 ∧
    attemptCount
        (makeRequest ⟨1, 1⟩ "https://example.com" transportOneServerError).1 =
      2 ∧
    Event.clockUpdate 0 ∈
      (makeRequest ⟨1, 1⟩ "https://example.com" transportOneServerError).1 := by
  have htrace : (makeRequest ⟨1, 1⟩ "https://example.com"
      transportOneServerError).1 =
      [.rateLimitWait, .attemptIssued 0, .clockUpdate 0, .backoffSleep 1,
        .attemptIssued 1, .clockUpdate 1] := by
    simp [makeRequest, attemptLoop, transportOneServerError]
  refine ⟨htrace, ?_, ?_, ?_⟩ <;>
    rw [htrace] <;>
    simp [waitCount, attemptCount, List.countP_cons]

theorem resolvesTo_truthy_validate (dparse : String → Option Int)
    (i : DateInput) (d : Int) (h : resolvesTo dparse i d) :
    i.isTruthy = true ∧ validate_date dparse i = .ok (some d) := by
  rcases h with rfl | ⟨s, rfl, hs, hp⟩
  · exact ⟨rfl, rfl⟩
  · constructor
    · simp [DateInput.isTruthy, bne_iff_ne, hs]
    · simp [validate_date, hp]

/-- C6: for every pair of parseable (and truthy) date inputs and every
acceptable limit argument, a start date strictly after the end date makes
`validate_search_params` raise `ValueError` — the `InvalidParameter`
failure of the spec — and a start date at or before the end date succeeds,
returning both resolved dates. -/
theorem validate_search_params_date_order (dparse : String → Option Int)
    (sd ed : DateInput) (ds de : Int) (limit : Option PyLimit)
    (hs : resolvesTo dparse sd ds) (he : resolvesTo dparse ed de)
    (hl : limit = none ∨ ∃ n, limit = some (.int n) ∧ 0 < n) :
    (de < ds →
      validate_search_params dparse sd ed limit = .error .valueError) ∧
    (ds ≤ de →
      validate_search_params dparse sd ed limit =
        .ok ⟨some ds, some de, limitField limit⟩) := by
  obtain ⟨hst, hsv⟩ := resolvesTo_truthy_validate dparse sd ds hs
  obtain ⟨het, hev⟩ := resolvesTo_truthy_validate dparse ed de he
  constructor
  · intro hlt
    simp [validate_search_params, datesPart, hst, het, hsv, hev, hlt]
  · intro hle
    have hnl : ¬(de < ds) := not_lt.mpr hle
    rcases hl with rfl | ⟨n, rfl, hn⟩
    · simp [validate_search_params, datesPart, hst, het, hsv, hev, hnl,
        limitPart, limitField]
    · simp [validate_search_params, datesPart, hst, het, hsv, hev, hnl,
        limitPart, limitField, not_le.mpr hn]

/-- Witness for C6: start `5` at or before end `7` succeeds with both
dates returned. -/
theorem validate_search_params_date_order_witness :
    validate_search_params (fun _ => none) (.dt 5) (.dt 7) none =
      .ok ⟨some 5, some 7, none⟩ := by
  obtain ⟨_, h2⟩ :=
    validate_search_params_date_order (fun _ => none) (.dt 5) (.dt 7) 5 7
      none (Or.inl rfl) (Or.inl rfl) (Or.inl rfl)
  exact h2 (by norm_num)

/-- C7: when the date checks pass, a present limit that is non-`int`,
zero, or negative makes `validate_search_params` raise `ValueError`, and a
present positive integer limit succeeds with the returned limit equal to
`min(limit, 1000)`; in particular every limit above 1000 comes back as
exactly 1000 with no error. -/
theorem validate_search_params_limit_cap (dparse : String → Option Int)
    (sd ed : DateInput) (s? e? : Option Int) (n : Int)
    (hd : datesPart dparse sd ed = .ok (s?, e?)) :
    validate_search_params dparse sd ed (some .nonInt) =
        .error .valueError ∧
      (n ≤ 0 →
        validate_search_params dparse sd ed (some (.int n)) =
          .error .valueError) ∧
      (0 < n →
        validate_search_params dparse sd ed (some (.int n)) =
          .ok ⟨s?, e?, some (min n 1000)⟩) ∧
      (1000 < n →
        validate_search_params dparse sd ed (some (.int n)) =
          .ok ⟨s?, e?, some 1000⟩) := by
  refine ⟨?_, ?_, ?_, ?_⟩
  · simp [validate_search_params, hd, limitPart]
  · intro h
    simp [validate_search_params, hd, limitPart, h]
  · intro h
    simp [validate_search_params, hd, limitPart, not_le.mpr h]
  · intro h
    have h0 : 0 < n := by omega
    have hmin : min n 1000 = 1000 := by omega
    simp [validate_search_params, hd, limitPart, not_le.mpr h0, hmin]

/-- Witness for C7: a requested limit of 2000 is silently clamped to
1000. -/
theorem validate_search_params_limit_cap_witness :
    validate_search_params (fun _ => none) .pynone .pynone
        (some (.int 2000)) =
      .ok ⟨none, none, some 1000⟩ := by
  obtain ⟨_, _, _, h4⟩ :=
    validate_search_params_limit_cap (fun _ => none) .pynone .pynone
      none none 2000 rfl
  exact h4 (by norm_num)

/-- C10: a falsy date argument — the empty string in particular — is
treated as absent by `validate_search_params`: the date key is omitted and
no error is raised, whatever the parser would say about the empty string;
a nonempty unparseable string instead reaches the date parser and raises
`ValueError`. -/
theorem validate_search_params_falsy_empty (dparse : String → Option Int)
    (s : String) (hne : s ≠ "") (hp : dparse s = none) :
    validate_search_params dparse (.str "") (.str "") none =
        .ok ⟨none, none, none⟩ ∧
      validate_search_params dparse (.str s) .pynone none =
        .error .valueError := by
  constructor
  · simp [validate_search_params, datesPart, DateInput.isTruthy, limitPart]
  · simp [validate_search_params, datesPart, DateInput.isTruthy,
      bne_iff_ne, hne, validate_date, hp]

/-- Witness for C10 at the unparseable nonempty string `not-a-date` and a
parser that parses nothing. -/
theorem validate_search_params_falsy_empty_witness :
    validate_search_params (fun _ => none) (.str "") (.str "") none =
        .ok ⟨none, none, none⟩ ∧
      validate_search_params (fun _ => none) (.str "not-a-date") .pynone
          none =
        .error .valueError :=
  validate_search_params_falsy_empty (fun _ => none) "not-a-date"
    (by decide) rfl

/-- C8 (amended): `_parse_html` raises `ParsingError` on `None` input, on
which both parser backends raise `TypeError`; on every string input —
empty or malformed included — it returns a non-null tree and never raises;
and whenever the primary parser fails but the lenient fallback succeeds,
the fallback tree is returned instead of an error. -/
theorem parse_html_lenient
    (primary fallback : Option String → Except Unit Soup)
    (content : Option String) (soup : Soup)
    (hpf : primary content = .error ())
    (hfb : fallback content = .ok soup) :
    parse_html beautifulSoup beautifulSoup none = .error .parsingError ∧
    (∀ s, parse_html beautifulSoup beautifulSoup (some s) = .ok ⟨s⟩) ∧
    parse_html primary fallback content = .ok soup := by
  refine ⟨rfl, fun s => rfl, ?_⟩
  simp [parse_html, hpf, hfb]

/-- Witness for C8: `None` fails with `ParsingError`, and an unclosed tag
parses through the fallback when the primary backend rejects it. -/
theorem parse_html_lenient_witness :
    parse_html beautifulSoup beautifulSoup none = .error .parsingError ∧
    parse_html (fun _ => .error ()) beautifulSoup (some "<html") =
      .ok ⟨"<html"⟩ := by
  obtain ⟨h1, _, h3⟩ :=
    parse_html_lenient (fun _ => .error ()) beautifulSoup (some "<html")
      ⟨"<html"⟩ rfl rfl
  exact ⟨h1, h3⟩

/-- C8 counterexample: `_parse_html` on the empty string returns an empty
tree instead of raising — the code has no emptiness check and both
`BeautifulSoup` backends accept the empty string — so the claim that every
empty input fails with `ParsingError` is false; only `None` fails. -/
theorem parse_html_empty_counterexample :
    parse_html beautifulSoup beautifulSoup (some "") = .ok ⟨""⟩ ∧
    parse_html beautifulSoup beautifulSoup (some "") ≠
      .error .parsingError := by
  have h : parse_html beautifulSoup beautifulSoup (some "") = .ok ⟨""⟩ := rfl
  refine ⟨h, ?_⟩
  rw [h]
  simp

/-- C5 (amended): per-record extraction failures never abort a search —
both pipelines return the successfully extracted records whatever the
record builder does — and a pipeline-level scraping error raised by the
request propagates to the caller unchanged from
`CourtListenerScraper.search_cases`, while `BAILIIScraper.search_cases`
re-raises it as `ParsingError`: the search still aborts, but the original
error type is lost. -/
theorem searchPipelines_error_policy (e : ScrapeError)
    (jsonParse : String → Except String (List String))
    (parsePage : String → Except ScrapeError (List String)) (limit : Nat)
    (extract : String → Except String (Option CaseData))
    (body : String) (items links : List String)
    (hj : jsonParse body = .ok items) (hp : parsePage body = .ok links) :
    courtlistenerSearchPipeline (.error e) jsonParse extract = .error e ∧
    bailiiSearchPipeline (.error e) parsePage limit extract =
      .error .parsingError ∧
    courtlistenerSearchPipeline (.ok body) jsonParse extract =
      .ok (extractedRecords extract items) ∧
    bailiiSearchPipeline (.ok body) parsePage limit extract =
      .ok (extractedRecords extract (links.take limit)) := by
  refine ⟨rfl, rfl, ?_, ?_⟩
  · simp [courtlistenerSearchPipeline, hj]
  · simp [bailiiSearchPipeline, hp]

/-- Witness for C5: with one of two items failing extraction, both
pipelines return the one good record; a `NetworkError` from the request
propagates as-is from the CourtListener pipeline and as `ParsingError`
from the BAILII pipeline. -/
theorem searchPipelines_error_policy_witness :
    courtlistenerSearchPipeline
        (.error (.networkError "https://example.com" none)) twoItemsJson
        skipBadExtract =
      .error (.networkError "https://example.com" none) ∧
    bailiiSearchPipeline (.error (.networkError "https://example.com" none))
        twoLinksPage 10 skipBadExtract =
      .error .parsingError ∧
    courtlistenerSearchPipeline (.ok "page") twoItemsJson skipBadExtract =
      .ok [⟨"good"⟩] ∧
    bailiiSearchPipeline (.ok "page") twoLinksPage 10 skipBadExtract =
      .ok [⟨"good"⟩] := by
  obtain ⟨h1, h2, h3, h4⟩ :=
    searchPipelines_error_policy (.networkError "https://example.com" none)
      twoItemsJson twoLinksPage 10 skipBadExtract "page" ["good", "bad"]
      ["good", "bad"] rfl rfl
  refine ⟨h1, h2, ?_, ?_⟩
  · rw [h3]; rfl
  · rw [h4]; rfl

/-- C5 counterexample: a `NetworkError` raised by `_make_request` inside
`BAILIIScraper.search_cases` reaches the caller as `ParsingError`, not
unchanged with its original type as the claim states. -/
theorem bailii_network_error_counterexample :
    bailiiSearchPipeline
        (.error (.networkError "https://www.bailii.org/cgi-bin/markup.cgi"
          none))
        (fun _ => .ok []) 100 (fun _ => .ok none) =
      .error .parsingError ∧
    bailiiSearchPipeline
        (.error (.networkError "https://www.bailii.org/cgi-bin/markup.cgi"
          none))
        (fun _ => .ok []) 100 (fun _ => .ok none) ≠
      .error (.networkError "https://www.bailii.org/cgi-bin/markup.cgi"
        none) := by
  have h : bailiiSearchPipeline
      (.error (.networkError "https://www.bailii.org/cgi-bin/markup.cgi"
        none))
      (fun _ => .ok []) 100 (fun _ => .ok none) =
      .error .parsingError := rfl
  refine ⟨h, ?_⟩
  rw [h]
  simp

/-- C9 (amended): the fallback to a single-result search is narrower than
claimed. For Légifrance, an id that is nonempty, not a URL, and not a
CETATEXT/JURITEXT document id falls back to
`search_cases(query=case_id, limit=1)` and returns the first hit or
`None`; CanLII does the same for an id without a slash but wraps the query
as `citation:"<id>"`; CourtListener never falls back to a search — when
both of its endpoints fail it returns `None`. -/
theorem get_case_by_id_fallback
    (search : String → Nat → Except ScrapeError (List CaseData))
    (fetchDetail : String → Option CaseData)
    (opinionTry clusterTry : String → Except Unit (Option CaseData))
    (caseId : String) (found foundCit : List CaseData)
    (hne : caseId ≠ "") (hhttp : pyStartswith caseId "http" = false)
    (hceta : pyStartswith caseId "CETATEXT" = false)
    (hjuri : pyStartswith caseId "JURITEXT" = false)
    (hslash : pyContainsChar caseId '/' = false)
    (hs : search caseId 1 = .ok found)
    (hcit : search ("citation:\"" ++ caseId ++ "\"") 1 = .ok foundCit)
    (hop : opinionTry caseId = .error ())
    (hcl : clusterTry caseId = .error ()) :
    legifrance_get_case_by_id search fetchDetail caseId =
        .ok found.head? ∧
      canlii_get_case_by_id search fetchDetail caseId =
        .ok foundCit.head? ∧
      courtlistener_get_case_by_id opinionTry clusterTry caseId =
        .ok none := by
  refine ⟨?_, ?_, ?_⟩
  · simp [legifrance_get_case_by_id, hne, hhttp, hceta, hjuri, hs]
  · simp [canlii_get_case_by_id, hne, hhttp, hslash, hcit]
  · simp [courtlistener_get_case_by_id, hne, hop, hcl]

/-- Witness for C9 at the free-text id `Smith v Jones` with a search that
finds one record and endpoints that fail. -/
theorem get_case_by_id_fallback_witness :
    legifrance_get_case_by_id searchFindsOne (fun _ => none)
        "Smith v Jones" =
      .ok (some ⟨"Found via search"⟩) ∧
    canlii_get_case_by_id searchFindsOne (fun _ => none) "Smith v Jones" =
      .ok (some ⟨"Found via search"⟩) ∧
    courtlistener_get_case_by_id (fun _ => .error ()) (fun _ => .error ())
        "Smith v Jones" =
      .ok none := by
  obtain ⟨h1, h2, h3⟩ :=
    get_case_by_id_fallback searchFindsOne (fun _ => none)
      (fun _ => .error ()) (fun _ => .error ()) "Smith v Jones"
      [⟨"Found via search"⟩] [⟨"Found via search"⟩] (by decide) (by decide)
      (by decide) (by decide) (by decide) rfl rfl rfl rfl
  exact ⟨h1, h2, h3⟩

/-- C9 counterexample: for the Légifrance adapter and the nonempty,
non-URL id `CETATEXT000047123456`, `get_case_by_id` fetches the document
URL directly — here yielding `None` — and never runs the claimed fallback
`search_cases(query=case_id, limit=1)`: the search oracle finds a record
for every query, yet the call returns `None` rather than that first
hit. -/
theorem legifrance_structured_id_counterexample :
    legifrance_get_case_by_id searchFindsOne (fun _ => none)
        "CETATEXT000047123456" =
      .ok none ∧
    searchFindsOne "CETATEXT000047123456" 1 =
      .ok [⟨"Found via search"⟩] ∧
    legifrance_get_case_by_id searchFindsOne (fun _ => none)
        "CETATEXT000047123456" ≠
      .ok (some ⟨"Found via search"⟩) := by
  have h : legifrance_get_case_by_id searchFindsOne (fun _ => none)
      "CETATEXT000047123456" = .ok none := rfl
  refine ⟨h, rfl, ?_⟩
  rw [h]
  simp
